import Mathlib

/-!
Verification development for the CuraBlock transaction-risk façade.

The repository forwards cryptocurrency transaction payloads to an external
fraud-scoring HTTP service.  Its only decision logic lives in the
TransactionPredictor.predict methods of three near-duplicate modules:

  * src/api/predict.py      ("v1": feature slots 13/14, single 30 s timeout,
                             prediction-string response shape)
  * src/api/predict_v2.py   ("v2": feature slots 0/1, 10 s then 20 s tiered
                             timeouts, numeric risk_score response shape,
                             attribute-aware timeout fallback)
  * src/api/predict_new.py  ("new": raw pass-through)

This file shallowly embeds those methods.  JSON-ish values are modelled by
the Scalar / FieldVal / Val types below; Python dicts by association lists
on String keys; Python floats by rationals (every IEEE double is a rational,
and all arithmetic performed by this code - float(), comparison against
10 / 0.7 / 0.4, one addition of 0.15 and a min with 0.6 - is exact at every
value the claims touch).  Operations that can raise in Python (float() on a
non-numeric value, len() on a number, item assignment on a non-list,
ordering comparison against a string) are modelled as Option failures; a
failure propagates to the predictor's outermost except-handler exactly as
the exception does in the source.  Nesting deeper than one level (lists of
lists, dicts inside dicts beyond one object level, integer-keyed dicts)
does not occur in this API's payloads and is outside the embedding; no
claim concerns such inputs.
-/

namespace CuraBlock

/-- Atomic JSON value: number, string or boolean. -/
inductive Scalar where
  | sNum : ℚ → Scalar
  | sStr : String → Scalar
  | sBool : Bool → Scalar
deriving DecidableEq, Repr

/-- Value stored in a nested JSON object (upstream response bodies hold
scalars and flat lists only). -/
inductive FieldVal where
  | fScalar : Scalar → FieldVal
  | fList : List Scalar → FieldVal
deriving DecidableEq, Repr

/-- Value of a top-level field of a payload or of a result object: a scalar,
a flat list (the features vector), or one nested object (the upstream body
echoed back as external_prediction in v1's success result). -/
inductive Val where
  | vScalar : Scalar → Val
  | vList : List Scalar → Val
  | vObj : List (String × FieldVal) → Val
deriving DecidableEq, Repr

/-- Shorthand for a numeric field value. -/
def num (q : ℚ) : Val := .vScalar (.sNum q)

/-- Shorthand for a string field value. -/
def str (s : String) : Val := .vScalar (.sStr s)

/-- Shorthand for a boolean field value. -/
def bool (b : Bool) : Val := .vScalar (.sBool b)

/-- Python dict with string keys, as an association list (first binding of a
key wins, mirroring dict key uniqueness). -/
abbrev Payload := List (String × Val)

/-- Parsed upstream JSON response body. -/
abbrev Obj := List (String × FieldVal)

/-- Dictionary lookup, d.get(k) / d[k]. -/
def lookupKey {α : Type} : List (String × α) → String → Option α
  | [], _ => none
  | (k', v') :: t, k => if k' = k then some v' else lookupKey t k

/-- Dictionary lookup with default, d.get(k, dflt). -/
def getKeyD {α : Type} (p : List (String × α)) (k : String) (dflt : α) : α :=
  (lookupKey p k).getD dflt

/-- Key-membership test, k in d. -/
def hasKey {α : Type} (p : List (String × α)) (k : String) : Bool :=
  (lookupKey p k).isSome

/-- Dictionary update d[k] = v: replaces the first binding of k, or appends. -/
def setKey {α : Type} : List (String × α) → String → α → List (String × α)
  | [], k, v => [(k, v)]
  | (k', v') :: t, k, v => if k' = k then (k, v) :: t else (k', v') :: setKey t k v

/-- View a nested-object field value as a top-level value. -/
def FieldVal.toVal : FieldVal → Val
  | .fScalar s => .vScalar s
  | .fList l => .vList l

/-- Numeric value of a decimal digit character. -/
def digitVal (c : Char) : Option ℕ :=
  if c.isDigit then some (c.toNat - 48) else none

/-- Accumulating base-10 reading of a digit string; fails on a non-digit. -/
def digitsToNatAux : List Char → ℕ → Option ℕ
  | [], acc => some acc
  | c :: cs, acc =>
    match digitVal c with
    | none => none
    | some d => digitsToNatAux cs (acc * 10 + d)

/-- Base-10 reading of a nonempty digit string. -/
def digitsToNat (cs : List Char) : Option ℕ := digitsToNatAux cs 0

/-- Reading of an unsigned decimal literal, with an optional fractional part
("12", "3.5", "1.", ".5"; bare "." and the empty string fail). -/
def strToRatPos (cs : List Char) : Option ℚ :=
  match cs.span (· ≠ '.') with
  | (intCs, []) =>
    if intCs = [] then none
    else (digitsToNat intCs).map (fun n => (n : ℚ))
  | (intCs, _ :: fracCs) =>
    if intCs = [] ∧ fracCs = [] then none
    else
      match (if intCs = [] then some 0 else digitsToNat intCs),
            (if fracCs = [] then some 0 else digitsToNat fracCs) with
      | some i, some f => some ((i : ℚ) + (f : ℚ) / (10 : ℚ) ^ fracCs.length)
      | _, _ => none

/-- Python float() applied to a string: parse a plain decimal literal with an
optional sign.  Python additionally accepts exponents, inf/nan, underscores
and surrounding whitespace; those forms never occur in this development and
are modelled as failures. -/
def strToRat (s : String) : Option ℚ :=
  match s.data with
  | '-' :: rest => (strToRatPos rest).map Neg.neg
  | '+' :: rest => strToRatPos rest
  | cs => strToRatPos cs

/-- Python float(v): exact on numbers, 1.0/0.0 on booleans, decimal parse on
strings, TypeError (failure) on lists and dicts. -/
def floatCoerce : Val → Option ℚ
  | .vScalar (.sNum q) => some q
  | .vScalar (.sBool b) => some (if b then 1 else 0)
  | .vScalar (.sStr s) => strToRat s
  | .vList _ => none
  | .vObj _ => none

/-- Python truthiness, bool(v). -/
def truthy : Val → Bool
  | .vScalar (.sNum q) => if q = 0 then false else true
  | .vScalar (.sStr s) => if s = "" then false else true
  | .vScalar (.sBool b) => b
  | .vList l => if l = [] then false else true
  | .vObj o => if o = [] then false else true

/-- Python comparison v > n against a number: exact on numbers, booleans
compare as 0/1, strings and containers raise TypeError (failure). -/
def valGtNum : Val → ℚ → Option Bool
  | .vScalar (.sNum q), n => some (if n < q then true else false)
  | .vScalar (.sBool b), n => some (if n < (if b then (1 : ℚ) else 0) then true else false)
  | .vScalar (.sStr _), _ => none
  | .vList _, _ => none
  | .vObj _, _ => none

/-- Python len(v): defined for lists, strings and dicts, TypeError (failure)
on numbers and booleans. -/
def pyLen : Val → Option ℕ
  | .vList l => some l.length
  | .vScalar (.sStr s) => some s.length
  | .vScalar _ => none
  | .vObj o => some o.length

/-- Python indexed assignment v[i] = x.  Lists are updated in place; strings
are immutable and numbers unindexable, so those raise (failure).  A
dict-valued features field would gain an integer key in Python; integer-keyed
dicts are outside this embedding and no claim concerns them, so that case is
modelled as failure as well. -/
def setItem : Val → ℕ → Scalar → Option Val
  | .vList l, i, x => if i < l.length then some (.vList (l.set i x)) else none
  | _, _, _ => none

/-- Python str(v) as used in f-string interpolation.  Only string content
matters to the claims; numeric, boolean and container renderings are
abbreviated (Python prints floats and containers differently). -/
def pyStr : Val → String
  | .vScalar (.sStr s) => s
  | .vScalar (.sNum q) => toString q
  | .vScalar (.sBool b) => if b then "True" else "False"
  | .vList _ => "[...]"
  | .vObj _ => "[object]"

/-- Python min(a, b) on two numbers. -/
def pymin (a b : ℚ) : ℚ := if a ≤ b then a else b

/-- Canonical default feature vector, [0.0] * 16 + ["", ""]
(predict.py line 30 / line 35; identical in predict_v2.py). -/
def defaultFeatures : List Scalar :=
  List.replicate 16 (.sNum 0) ++ [.sStr "", .sStr ""]

/-- Fast-path test of predict.py line 19 (identical in predict_v2.py):
all(k in transaction_data for k in ["from_address", "to_address",
"transaction_value", "features"]). -/
def isCanonicalShape (p : Payload) : Bool :=
  hasKey p "from_address" && hasKey p "to_address" &&
  hasKey p "transaction_value" && hasKey p "features"

/-- Shape normalization, predict.py lines 19-31 (identical in predict_v2.py):
pass an already-canonical payload through unchanged, otherwise rebuild
ml_request field by field with the alias/default rules; float() on a
non-coercible transaction_value or gas_price raises, which propagates to the
outermost handler (failure). -/
def shapeNormalize (p : Payload) : Option Payload :=
  if isCanonicalShape p then some p
  else
    match floatCoerce (getKeyD p "transaction_value" (getKeyD p "value" (num 0))) with
    | none => none
    | some tv =>
      match floatCoerce (getKeyD p "gas_price" (num 20)) with
      | none => none
      | some gp =>
        some [("from_address", getKeyD p "from_address" (str "")),
              ("to_address", getKeyD p "to_address" (str "")),
              ("transaction_value", num tv),
              ("gas_price", num gp),
              ("is_contract_interaction",
               bool (truthy (getKeyD p "is_contract_interaction"
                      (getKeyD p "is_contract" (bool false))))),
              ("acc_holder", getKeyD p "acc_holder" (getKeyD p "from_address" (str ""))),
              ("features", getKeyD p "features" (.vList defaultFeatures))]

/-- Feature-length repair, predict.py lines 33-35 (identical in
predict_v2.py): if len(ml_request["features"]) != 18, replace the whole
value with the canonical default; len() on an unmeasurable value raises
(failure). -/
def fixFeaturesLength (p : Payload) : Option Payload :=
  match lookupKey p "features" with
  | none => none
  | some f =>
    match pyLen f with
    | none => none
    | some n => if n ≠ 18 then some (setKey p "features" (.vList defaultFeatures)) else some p

/-- Slot overwrite, predict.py lines 37-39 (slots 13/14) and predict_v2.py
lines 37-39 (slots 0/1): ml_request["features"][i] =
float(ml_request.get("transaction_value", 0.0)) then ml_request["features"][j]
= float(ml_request.get("gas_price", 20.0)); a failing float() or item
assignment raises (failure). -/
def overwriteSlots (i j : ℕ) (p : Payload) : Option Payload :=
  match floatCoerce (getKeyD p "transaction_value" (num 0)) with
  | none => none
  | some tv =>
    match lookupKey p "features" with
    | none => none
    | some f =>
      match setItem f i (.sNum tv) with
      | none => none
      | some f1 =>
        let p1 := setKey p "features" f1
        match floatCoerce (getKeyD p1 "gas_price" (num 20)) with
        | none => none
        | some gp =>
          match lookupKey p1 "features" with
          | none => none
          | some f2 =>
            match setItem f2 j (.sNum gp) with
            | none => none
            | some f3 => some (setKey p1 "features" f3)

/-- Full request normalization of TransactionPredictor.predict before the
upstream call (predict.py / predict_v2.py lines 19-39), parameterized by the
two overwritten slot indices. -/
def normalizeAt (i j : ℕ) (p : Payload) : Option Payload :=
  match shapeNormalize p with
  | none => none
  | some m1 =>
    match fixFeaturesLength m1 with
    | none => none
    | some m2 => overwriteSlots i j m2

/-- Normalization of predict.py: transaction_value into slot 13, gas_price
into slot 14. -/
def normalizeV1 (p : Payload) : Option Payload := normalizeAt 13 14 p

/-- Normalization of predict_v2.py: transaction_value into slot 0, gas_price
into slot 1. -/
def normalizeV2 (p : Payload) : Option Payload := normalizeAt 0 1 p

/-- Outcome of one blocking POST to the upstream scorer: the attempt hit its
wall-clock timeout, failed with another transport error (exception class
name and message), or yielded an HTTP response with a status code and a
body that either parses as a JSON object (some) or does not (none). -/
inductive UpOutcome where
  | timeout : UpOutcome
  | transportErr : String → String → UpOutcome
  | response : ℕ → Option Obj → UpOutcome

/-- Timeout fallback of predict.py lines 53-59: flat medium-low assessment,
independent of the transaction. -/
def v1TimeoutAssessment : Payload :=
  [("prediction", str "Unknown"),
   ("risk_score", num 0.3),
   ("risk_level", str "MEDIUM-LOW"),
   ("explanation", str "ML API timed out. Using fallback risk assessment."),
   ("timeout", bool true)]

/-- Fraud test of predict.py line 66: api_response.get("prediction") ==
"Fraud"; a missing key yields None and any non-string value compares
unequal to the string "Fraud". -/
def isFraudPrediction (body : Obj) : Bool :=
  match lookupKey body "prediction" with
  | some (.fScalar (.sStr s)) => if s = "Fraud" then true else false
  | _ => false

/-- Success result of predict.py lines 62-79: prediction "Fraud" maps to
0.9/HIGH, anything else to 0.1/LOW; the raw upstream body is echoed back as
external_prediction. -/
def v1SuccessAssessment (body : Obj) : Payload :=
  [("external_prediction", .vObj body),
   ("prediction", (getKeyD body "prediction" (.fScalar (.sStr "Unknown"))).toVal),
   ("type", (getKeyD body "Type" (.fScalar (.sStr "Unknown"))).toVal),
   ("risk_score", num (if isFraudPrediction body then 0.9 else 0.1)),
   ("risk_level", str (if isFraudPrediction body then "HIGH" else "LOW")),
   ("explanation",
    str ("Transaction prediction: "
          ++ pyStr (getKeyD body "prediction" (.fScalar (.sStr "Unknown"))).toVal
          ++ ", Type: " ++ pyStr (getKeyD body "Type" (.fScalar (.sStr "Unknown"))).toVal))]

/-- Non-200 result of predict.py lines 80-87: no explanation field, only an
error string and a factors list. -/
def v1ApiErrorAssessment (status : ℕ) : Payload :=
  [("error", str ("API Error: " ++ toString status)),
   ("risk_score", num 0.5),
   ("risk_level", str "MEDIUM"),
   ("factors", .vList [.sStr "External ML API unavailable"])]

/-- Catch-all result of predict.py lines 88-95, produced for any exception
escaping the body (transport errors other than timeout, coercion failures,
body-parse failures): no explanation field, only an error string and a
factors list. -/
def v1ConnectionErrorAssessment (msg : String) : Payload :=
  [("error", str ("Connection Error: " ++ msg)),
   ("risk_score", num 0.5),
   ("risk_level", str "MEDIUM"),
   ("factors", .vList [.sStr "Failed to connect to external ML API"])]

/-- TransactionPredictor.predict of src/api/predict.py: normalize the
payload (a raised exception lands in the outer catch-all), make one
delivery attempt with a single 30 s timeout, and map the outcome.  The
exception text interpolated into the catch-all's error string is summarized
by a fixed marker, since no claim depends on it. -/
def v1Predict (p : Payload) (o : UpOutcome) : Payload :=
  match normalizeV1 p with
  | none => v1ConnectionErrorAssessment "float() or item assignment raised"
  | some _ =>
    match o with
    | .timeout => v1TimeoutAssessment
    | .transportErr _ emsg => v1ConnectionErrorAssessment emsg
    | .response status b =>
      if status = 200 then
        match b with
        | some body => v1SuccessAssessment body
        | none => v1ConnectionErrorAssessment "response body is not valid JSON"
      else v1ApiErrorAssessment status

/-- Timeout fallback of predict_v2.py lines 69-93, after both attempts time
out, built from the normalized request q: base 0.3/MEDIUM-LOW; a truthy
is_contract_interaction raises it to 0.45/MEDIUM and appends a clause; a
transaction_value greater than 10 raises the score by 0.15 capped with
min at 0.6, sets MEDIUM-HIGH and appends a clause.  The comparison against
10 raises on a non-number (failure, landing in the outer catch-all). -/
def v2FallbackAssessment (q : Payload) : Option Payload :=
  let ic := truthy (getKeyD q "is_contract_interaction" (bool false))
  let score1 : ℚ := if ic then 0.45 else 0.3
  let level1 : String := if ic then "MEDIUM" else "MEDIUM-LOW"
  let expl1 : String :=
    "ML API timed out. Using fallback risk assessment."
      ++ (if ic then " Contract interaction detected." else "")
  match valGtNum (getKeyD q "transaction_value" (num 0)) 10 with
  | none => none
  | some big =>
    some [("prediction", str "Unknown"),
          ("risk_score", num (if big then pymin 0.6 (score1 + 0.15) else score1)),
          ("risk_level", str (if big then "MEDIUM-HIGH" else level1)),
          ("explanation", str (expl1 ++ (if big then " Large transaction value." else ""))),
          ("timeout", bool true),
          ("fallback_assessment", bool true)]

/-- Transport-error result of predict_v2.py lines 94-113 (identical on both
attempts): flat cautious assessment carrying the exception text and class
name. -/
def v2RequestErrorAssessment (ename emsg : String) : Payload :=
  [("error", str ("ML API Error: " ++ emsg)),
   ("risk_score", num 0.5),
   ("risk_level", str "MEDIUM"),
   ("explanation", str "ML service connection error. Using cautious assessment."),
   ("error_type", str ename)]

/-- Success result of predict_v2.py lines 117-137: the upstream risk_score
(default 0.1 when absent) is consumed directly and re-bucketed, HIGH above
0.7, MEDIUM above 0.4, LOW otherwise.  Both threshold comparisons raise on
a non-number risk_score (failure, landing in the outer catch-all; Python
short-circuits the second comparison, but the two comparisons fail on
exactly the same values, so the outcome is identical). -/
def v2SuccessAssessment (body : Obj) : Option Payload :=
  match valGtNum ((getKeyD body "risk_score" (.fScalar (.sNum 0.1))).toVal) 0.7 with
  | none => none
  | some hi =>
    match valGtNum ((getKeyD body "risk_score" (.fScalar (.sNum 0.1))).toVal) 0.4 with
    | none => none
    | some med =>
      some [("prediction", (getKeyD body "prediction" (.fScalar (.sNum 0))).toVal),
            ("risk_score", (getKeyD body "risk_score" (.fScalar (.sNum 0.1))).toVal),
            ("risk_level", str (if hi then "HIGH" else if med then "MEDIUM" else "LOW")),
            ("features", (getKeyD body "features" (.fList [])).toVal),
            ("explanation", str ("Transaction risk score: "
              ++ pyStr ((getKeyD body "risk_score" (.fScalar (.sNum 0.1))).toVal))),
            ("success", bool true)]

/-- JSON-parse-failure result of predict_v2.py lines 138-146. -/
def v2InvalidResponseAssessment : Payload :=
  [("error", str "Invalid response from ML API (JSON parsing error)"),
   ("risk_score", num 0.5),
   ("risk_level", str "MEDIUM"),
   ("explanation", str "ML service returned an invalid response. Using cautious assessment.")]

/-- Non-200 result of predict_v2.py lines 147-160. -/
def v2ApiErrorAssessment (status : ℕ) : Payload :=
  [("error", str ("API Error: " ++ toString status)),
   ("risk_score", num 0.5),
   ("risk_level", str "MEDIUM"),
   ("explanation",
    str ("ML service error (HTTP " ++ toString status ++ "). Using cautious assessment."))]

/-- Catch-all result of predict_v2.py lines 161-170, produced for any
uncaught exception (coercion failure during normalization, non-comparable
risk_score on the success path, non-comparable transaction_value in the
fallback). -/
def v2UnexpectedErrorAssessment (msg : String) : Payload :=
  [("error", str ("Unexpected error: " ++ msg)),
   ("risk_score", num 0.5),
   ("risk_level", str "MEDIUM"),
   ("explanation", str "An unexpected error occurred. Using cautious assessment."),
   ("error_type", str "TypeError")]

/-- Handling of a parsed 200 body in predict_v2.py lines 117-146: build the
success assessment; a comparison failure inside it escapes to the outer
catch-all. -/
def v2HandleBody (body : Obj) : Payload :=
  match v2SuccessAssessment body with
  | some a => a
  | none => v2UnexpectedErrorAssessment "risk_score comparison raised"

/-- Handling of a 200 response in predict_v2.py lines 116-146: parse the
body (a parse failure is caught as ValueError and yields the dedicated
invalid-response assessment) and hand the object over. -/
def v2Handle200 : Option Obj → Payload
  | some body => v2HandleBody body
  | none => v2InvalidResponseAssessment

/-- Response handling of predict_v2.py lines 116-160, shared by both
attempts: HTTP 200 is handed to the body handler, any other status yields
the API-error assessment. -/
def v2HandleResponse (status : ℕ) (b : Option Obj) : Payload :=
  if status = 200 then v2Handle200 b else v2ApiErrorAssessment status

/-- Double-timeout synthesis of predict_v2.py lines 65-93: build the
attribute-aware fallback (a failed comparison there lands in the outer
catch-all). -/
def v2TimeoutFallback (q : Payload) : Payload :=
  match v2FallbackAssessment q with
  | some a => a
  | none => v2UnexpectedErrorAssessment "transaction_value comparison raised"

/-- Retry attempt of predict_v2.py (20 s timeout), reached only after the
first attempt times out: a response is handled like any response, a
non-timeout transport error is terminal, and a second timeout synthesizes
the fallback. -/
def v2Round2 (q : Payload) (o2 : UpOutcome) : Payload :=
  match o2 with
  | .response status b => v2HandleResponse status b
  | .transportErr ename emsg => v2RequestErrorAssessment ename emsg
  | .timeout => v2TimeoutFallback q

/-- First attempt of predict_v2.py (10 s timeout): a response or a non-timeout
transport error is terminal; a timeout falls through to the retry. -/
def v2Round1 (q : Payload) (o1 o2 : UpOutcome) : Payload :=
  match o1 with
  | .response status b => v2HandleResponse status b
  | .transportErr ename emsg => v2RequestErrorAssessment ename emsg
  | .timeout => v2Round2 q o2

/-- TransactionPredictor.predict of src/api/predict_v2.py: normalize the
payload (a raised exception lands in the outer catch-all), attempt delivery
with a 10 s timeout, on timeout retry once with a 20 s timeout, and only if
the retry also times out synthesize the attribute-aware fallback; o1 and o2
are the outcomes of the two attempts (o2 is reached only when o1 times
out). -/
def v2Predict (p : Payload) (o1 o2 : UpOutcome) : Payload :=
  match normalizeV2 p with
  | none => v2UnexpectedErrorAssessment "float() or item assignment raised"
  | some q => v2Round1 q o1 o2

/-- Non-200 result of predict_new.py lines 29-36: no explanation field. -/
def newApiErrorAssessment (status : ℕ) : Payload :=
  [("error", str ("API Error: " ++ toString status)),
   ("risk_score", num 0.5),
   ("risk_level", str "MEDIUM"),
   ("factors", .vList [.sStr "External ML API unavailable"])]

/-- Catch-all result of predict_new.py lines 37-44: no explanation field. -/
def newConnectionErrorAssessment (msg : String) : Payload :=
  [("error", str ("Connection Error: " ++ msg)),
   ("risk_score", num 0.5),
   ("risk_level", str "MEDIUM"),
   ("factors", .vList [.sStr "Failed to connect to external ML API"])]

/-- TransactionPredictor.predict of src/api/predict_new.py: forward the
payload untouched with a single 10 s timeout; on HTTP 200 return the parsed
upstream body verbatim (lifted to a result object), on non-200 an error
object, and on timeout or any other exception the catch-all error object
(requests.exceptions.Timeout is an exception, caught by the bare except). -/
def newPredict (o : UpOutcome) : Payload :=
  match o with
  | .timeout => newConnectionErrorAssessment "timed out"
  | .transportErr _ emsg => newConnectionErrorAssessment emsg
  | .response status b =>
    if status = 200 then
      match b with
      | some body => body.map (fun kv => (kv.1, kv.2.toVal))
      | none => newConnectionErrorAssessment "response body is not valid JSON"
    else newApiErrorAssessment status

/-- Feature slot k of a payload whose features field is a list. -/
def featureSlot (p : Payload) (k : ℕ) : Option Scalar :=
  match lookupKey p "features" with
  | some (.vList l) => l.get? k
  | _ => none

section Lemmas

variable {α : Type}

lemma lookup_setKey_self (p : List (String × α)) (k : String) (v : α) :
    lookupKey (setKey p k v) k = some v := by
  induction p with
  | nil => simp [setKey, lookupKey]
  | cons hd t ih =>
    obtain ⟨k', v'⟩ := hd
    by_cases h : k' = k <;> simp [setKey, lookupKey, h, ih]

lemma lookup_setKey_ne (p : List (String × α)) {k k' : String} (v : α) (h : k' ≠ k) :
    lookupKey (setKey p k' v) k = lookupKey p k := by
  induction p with
  | nil => simp [setKey, lookupKey, h]
  | cons hd t ih =>
    obtain ⟨k'', v''⟩ := hd
    by_cases h2 : k'' = k' <;> simp [setKey, lookupKey, h2, ih]
    · subst h2
      simp [h]

lemma setKey_setKey (p : List (String × α)) (k : String) (v w : α) :
    setKey (setKey p k v) k w = setKey p k w := by
  induction p with
  | nil => simp [setKey]
  | cons hd t ih =>
    obtain ⟨k', v'⟩ := hd
    by_cases h : k' = k <;> simp [setKey, h, ih]

/-- Characterization of a successful slot overwrite. -/
lemma overwriteSlots_eq_some {i j : ℕ} {p q : Payload} :
    overwriteSlots i j p = some q ↔
      ∃ tv l gp,
        floatCoerce (getKeyD p "transaction_value" (num 0)) = some tv ∧
        lookupKey p "features" = some (.vList l) ∧
        i < l.length ∧
        floatCoerce (getKeyD p "gas_price" (num 20)) = some gp ∧
        j < l.length ∧
        q = setKey p "features" (.vList ((l.set i (.sNum tv)).set j (.sNum gp))) := by
  constructor
  · intro h
    unfold overwriteSlots at h
    cases htv : floatCoerce (getKeyD p "transaction_value" (num 0)) with
    | none => rw [htv] at h; cases h
    | some tv =>
      rw [htv] at h
      cases hf : lookupKey p "features" with
      | none => rw [hf] at h; cases h
      | some f =>
        rw [hf] at h
        cases f with
        | vScalar s => cases s <;> simp [setItem] at h
        | vObj o => simp [setItem] at h
        | vList l =>
          simp only [setItem] at h
          by_cases hi : i < l.length
          · rw [if_pos hi] at h
            simp only [] at h
            rw [show getKeyD (setKey p "features" (Val.vList (l.set i (.sNum tv))))
                  "gas_price" (num 20) = getKeyD p "gas_price" (num 20) from by
                  unfold getKeyD
                  rw [lookup_setKey_ne _ _ (by simp)]] at h
            cases hgp : floatCoerce (getKeyD p "gas_price" (num 20)) with
            | none => rw [hgp] at h; cases h
            | some gp =>
              rw [hgp, lookup_setKey_self] at h
              simp only [setItem, List.length_set] at h
              by_cases hj : j < l.length
              · rw [if_pos hj] at h
                have h' : some (setKey (setKey p "features" (Val.vList (l.set i (.sNum tv))))
                    "features" (Val.vList ((l.set i (.sNum tv)).set j (.sNum gp)))) = some q := h
                rw [setKey_setKey] at h'
                refine ⟨tv, l, gp, rfl, rfl, hi, rfl, hj, ?_⟩
                exact (Option.some_inj.mp h').symm
              · rw [if_neg hj] at h; cases h
          · rw [if_neg hi] at h; cases h
  · rintro ⟨tv, l, gp, htv, hf, hi, hgp, hj, hq⟩
    unfold overwriteSlots
    rw [htv, hf]
    simp only [setItem, if_pos hi]
    rw [show getKeyD (setKey p "features" (Val.vList (l.set i (.sNum tv))))
          "gas_price" (num 20) = getKeyD p "gas_price" (num 20) from by
          unfold getKeyD
          rw [lookup_setKey_ne _ _ (by simp)]]
    rw [hgp, lookup_setKey_self]
    simp only [setItem, List.length_set, if_pos hj]
    rw [setKey_setKey, hq]

/-- Under a successful normalization the features field of the intermediate
request is a list of length exactly 18, and the result is that list with the
two designated slots overwritten and nothing else changed. -/
lemma normalizeAt_some {i j : ℕ} {p q : Payload} (h : normalizeAt i j p = some q) :
    ∃ m2 l tv gp,
      fixFeaturesLength ((shapeNormalize p).getD []) = some m2 ∧
      lookupKey m2 "features" = some (.vList l) ∧
      l.length = 18 ∧
      i < l.length ∧ j < l.length ∧
      floatCoerce (getKeyD m2 "transaction_value" (num 0)) = some tv ∧
      floatCoerce (getKeyD m2 "gas_price" (num 20)) = some gp ∧
      q = setKey m2 "features" (.vList ((l.set i (.sNum tv)).set j (.sNum gp))) := by
  unfold normalizeAt at h
  cases h1 : shapeNormalize p with
  | none => rw [h1] at h; cases h
  | some m1 =>
    rw [h1] at h
    have h' : (match fixFeaturesLength m1 with
        | none => none
        | some m2 => overwriteSlots i j m2) = some q := h
    clear h
    cases h2 : fixFeaturesLength m1 with
    | none => rw [h2] at h'; cases h'
    | some m2 =>
      rw [h2] at h'
      obtain ⟨tv, l, gp, htv, hf, hi, hgp, hj, hq⟩ := overwriteSlots_eq_some.1 h'
      refine ⟨m2, l, tv, gp, by simpa using h2, hf, ?_, hi, hj, htv, hgp, hq⟩
      unfold fixFeaturesLength at h2
      cases h3 : lookupKey m1 "features" with
      | none => rw [h3] at h2; cases h2
      | some f0 =>
        rw [h3] at h2
        have h2' : (match pyLen f0 with
            | none => none
            | some n =>
              if n ≠ 18 then some (setKey m1 "features" (Val.vList defaultFeatures))
              else some m1) = some m2 := h2
        clear h2
        cases h4 : pyLen f0 with
        | none => rw [h4] at h2'; cases h2'
        | some n =>
          rw [h4] at h2'
          have h2'' : (if n ≠ 18 then some (setKey m1 "features" (Val.vList defaultFeatures))
              else some m1) = some m2 := h2'
          clear h2'
          by_cases h5 : n = 18
          · rw [if_neg (by simp [h5])] at h2''
            obtain rfl : m1 = m2 := Option.some_inj.mp h2''
            rw [h3] at hf
            obtain rfl : f0 = Val.vList l := Option.some_inj.mp hf
            subst h5
            simpa [pyLen] using h4
          · rw [if_pos h5] at h2''
            obtain rfl : setKey m1 "features" (Val.vList defaultFeatures) = m2 :=
              Option.some_inj.mp h2''
            rw [lookup_setKey_self] at hf
            obtain hd : Val.vList defaultFeatures = Val.vList l := Option.some_inj.mp hf
            cases hd
            simp [defaultFeatures]

/-- Characterization of a successful shape normalization. -/
lemma shapeNormalize_eq_some {p m1 : Payload} (h : shapeNormalize p = some m1) :
    (isCanonicalShape p = true ∧ m1 = p) ∨
    (isCanonicalShape p = false ∧ ∃ tv gp,
      floatCoerce (getKeyD p "transaction_value" (getKeyD p "value" (num 0))) = some tv ∧
      floatCoerce (getKeyD p "gas_price" (num 20)) = some gp ∧
      m1 = [("from_address", getKeyD p "from_address" (str "")),
            ("to_address", getKeyD p "to_address" (str "")),
            ("transaction_value", num tv),
            ("gas_price", num gp),
            ("is_contract_interaction",
             bool (truthy (getKeyD p "is_contract_interaction"
                    (getKeyD p "is_contract" (bool false))))),
            ("acc_holder", getKeyD p "acc_holder" (getKeyD p "from_address" (str ""))),
            ("features", getKeyD p "features" (.vList defaultFeatures))]) := by
  unfold shapeNormalize at h
  by_cases hc : isCanonicalShape p
  · rw [if_pos hc] at h
    exact Or.inl ⟨hc, (Option.some_inj.mp h).symm⟩
  · rw [if_neg hc] at h
    cases htv : floatCoerce (getKeyD p "transaction_value" (getKeyD p "value" (num 0))) with
    | none => rw [htv] at h; cases h
    | some tv =>
      rw [htv] at h
      have h' : (match floatCoerce (getKeyD p "gas_price" (num 20)) with
          | none => none
          | some gp =>
            some [("from_address", getKeyD p "from_address" (str "")),
                  ("to_address", getKeyD p "to_address" (str "")),
                  ("transaction_value", num tv),
                  ("gas_price", num gp),
                  ("is_contract_interaction",
                   bool (truthy (getKeyD p "is_contract_interaction"
                          (getKeyD p "is_contract" (bool false))))),
                  ("acc_holder", getKeyD p "acc_holder" (getKeyD p "from_address" (str ""))),
                  ("features", getKeyD p "features" (.vList defaultFeatures))]) = some m1 := h
      clear h
      cases hgp : floatCoerce (getKeyD p "gas_price" (num 20)) with
      | none => rw [hgp] at h'; cases h'
      | some gp =>
        rw [hgp] at h'
        exact Or.inr ⟨by simpa using hc, tv, gp, rfl, rfl, (Option.some_inj.mp h').symm⟩

/-- A successful normalization passes through a successful shape
normalization. -/
lemma normalizeAt_shape {i j : ℕ} {p q : Payload} (h : normalizeAt i j p = some q) :
    ∃ m1, shapeNormalize p = some m1 := by
  unfold normalizeAt at h
  cases hs : shapeNormalize p with
  | none => rw [hs] at h; cases h
  | some m1 => exact ⟨m1, rfl⟩

/-- Computation rule for the feature-length repair once the features field
and its length are known. -/
lemma fixFeaturesLength_spec {p : Payload} {f : Val} {n : ℕ}
    (hf : lookupKey p "features" = some f) (hn : pyLen f = some n) :
    fixFeaturesLength p =
      if n ≠ 18 then some (setKey p "features" (.vList defaultFeatures)) else some p := by
  unfold fixFeaturesLength
  simp only [hf, hn]

/-- When the caller's features field is absent or is a list of the wrong
length, a successful normalization installs the canonical default vector
and then overwrites its two designated slots. -/
lemma normalizeAt_default {i j : ℕ} {p q : Payload} (h : normalizeAt i j p = some q)
    (hf : lookupKey p "features" = none ∨
          ∃ l0, lookupKey p "features" = some (.vList l0) ∧ l0.length ≠ 18) :
    ∃ tv gp, lookupKey q "features" =
      some (.vList ((defaultFeatures.set i (.sNum tv)).set j (.sNum gp))) := by
  obtain ⟨m2, l, tv, gp, hfix, hfm2, hlen, hi, hj, htv, hgp, hq⟩ := normalizeAt_some h
  obtain ⟨m1, hs⟩ := normalizeAt_shape h
  rw [hs, Option.getD_some] at hfix
  have hldef : l = defaultFeatures := by
    rcases shapeNormalize_eq_some hs with ⟨hc, rfl⟩ | ⟨hc, tv', gp', _, _, rfl⟩
    · rcases hf with habs | ⟨l0, hl0, hlen0⟩
      · exfalso
        unfold isCanonicalShape hasKey at hc
        rw [habs] at hc
        simp at hc
      · rw [fixFeaturesLength_spec hl0 rfl, if_pos hlen0] at hfix
        obtain rfl := Option.some_inj.mp hfix
        rw [lookup_setKey_self] at hfm2
        obtain hd : Val.vList defaultFeatures = Val.vList l := Option.some_inj.mp hfm2
        cases hd
        rfl
    · have hm1f : lookupKey
          [("from_address", getKeyD p "from_address" (str "")),
           ("to_address", getKeyD p "to_address" (str "")),
           ("transaction_value", num tv'),
           ("gas_price", num gp'),
           ("is_contract_interaction",
            bool (truthy (getKeyD p "is_contract_interaction"
                   (getKeyD p "is_contract" (bool false))))),
           ("acc_holder", getKeyD p "acc_holder" (getKeyD p "from_address" (str ""))),
           ("features", getKeyD p "features" (.vList defaultFeatures))] "features" =
          some (getKeyD p "features" (.vList defaultFeatures)) := rfl
      rcases hf with habs | ⟨l0, hl0, hlen0⟩
      · have hdf : getKeyD p "features" (.vList defaultFeatures) = .vList defaultFeatures := by
          simp [getKeyD, habs]
        rw [fixFeaturesLength_spec (hm1f.trans (congrArg _ hdf)) rfl,
          if_neg (by simp [defaultFeatures])] at hfix
        obtain rfl := Option.some_inj.mp hfix
        rw [hm1f] at hfm2
        rw [hdf] at hfm2
        obtain hd : Val.vList defaultFeatures = Val.vList l := Option.some_inj.mp hfm2
        cases hd
        rfl
      · have hdf : getKeyD p "features" (.vList defaultFeatures) = .vList l0 := by
          simp [getKeyD, hl0]
        rw [fixFeaturesLength_spec (hm1f.trans (congrArg _ hdf)) rfl, if_pos hlen0] at hfix
        obtain rfl := Option.some_inj.mp hfix
        rw [lookup_setKey_self] at hfm2
        obtain hd : Val.vList defaultFeatures = Val.vList l := Option.some_inj.mp hfm2
        cases hd
        rfl
  subst hldef
  subst hq
  exact ⟨tv, gp, lookup_setKey_self _ _ _⟩

/-- Every successful normalization leaves a features list of length exactly
18 in the result. -/
lemma normalizeAt_len18 {i j : ℕ} {p q : Payload} (h : normalizeAt i j p = some q) :
    ∃ l, lookupKey q "features" = some (.vList l) ∧ l.length = 18 := by
  obtain ⟨m2, l, tv, gp, _, _, hlen, _, _, _, _, rfl⟩ := normalizeAt_some h
  exact ⟨_, lookup_setKey_self _ _ _, by simp [hlen]⟩

/-- After a successful normalization the two designated slots hold the
coerced transaction_value and gas_price of the result itself. -/
lemma normalizeAt_overwrite {i j : ℕ} {p q : Payload} (hij : i ≠ j)
    (h : normalizeAt i j p = some q) :
    ∃ tv gp,
      floatCoerce (getKeyD q "transaction_value" (num 0)) = some tv ∧
      floatCoerce (getKeyD q "gas_price" (num 20)) = some gp ∧
      featureSlot q i = some (.sNum tv) ∧ featureSlot q j = some (.sNum gp) := by
  obtain ⟨m2, l, tv, gp, _, hfm2, hlen, hi, hj, htv, hgp, rfl⟩ := normalizeAt_some h
  refine ⟨tv, gp, ?_, ?_, ?_, ?_⟩
  · unfold getKeyD at htv ⊢
    rw [lookup_setKey_ne _ _ (by decide)]
    exact htv
  · unfold getKeyD at hgp ⊢
    rw [lookup_setKey_ne _ _ (by decide)]
    exact hgp
  · unfold featureSlot
    rw [lookup_setKey_self]
    show ((l.set i (.sNum tv)).set j (.sNum gp)).get? i = some (.sNum tv)
    rw [List.get?_set_of_lt _ _ (by simpa using hi), if_neg (Ne.symm hij)]
    rw [List.get?_set_of_lt _ _ hi, if_pos rfl]
  · unfold featureSlot
    rw [lookup_setKey_self]
    show ((l.set i (.sNum tv)).set j (.sNum gp)).get? j = some (.sNum gp)
    rw [List.get?_set_of_lt _ _ (by simpa using hj), if_pos rfl]

end Lemmas

/-! Claim theorems. -/

/-- C5: for every input payload whose features field is absent or present as
a sequence, the normalized features sequence has length exactly 18 (shown
for all successfully normalized payloads, in both slot variants), and a
wrong-length features value is replaced wholesale by the canonical default
of 16 zeros plus two empty strings, never partially repaired. -/
theorem c5_feature_length_invariant :
    (∀ p q : Payload, normalizeV1 p = some q →
      ∃ l, lookupKey q "features" = some (.vList l) ∧ l.length = 18) ∧
    (∀ p q : Payload, normalizeV2 p = some q →
      ∃ l, lookupKey q "features" = some (.vList l) ∧ l.length = 18) ∧
    (∀ (p : Payload) (f : Val) (n : ℕ), lookupKey p "features" = some f →
      pyLen f = some n → n ≠ 18 →
      fixFeaturesLength p = some (setKey p "features" (.vList defaultFeatures))) := by
  refine ⟨fun p q h => normalizeAt_len18 h, fun p q h => normalizeAt_len18 h,
    fun p f n hf hn hne => ?_⟩
  rw [fixFeaturesLength_spec hf hn, if_pos hne]

/-- Old-format payload carrying a 5-element features list. -/
def c5Input : Payload :=
  [("transaction_value", num 3),
   ("features", .vList [.sNum 1, .sNum 2, .sNum 3, .sNum 4, .sNum 5])]

/-- Witness for C5 at a concrete wrong-length payload. -/
theorem c5_witness :
    (∃ l, lookupKey ((normalizeV1 c5Input).getD []) "features" = some (.vList l) ∧
      l.length = 18) ∧
    fixFeaturesLength c5Input = some (setKey c5Input "features" (.vList defaultFeatures)) :=
  ⟨c5_feature_length_invariant.1 c5Input _ rfl,
   c5_feature_length_invariant.2.2 c5Input
     (.vList [.sNum 1, .sNum 2, .sNum 3, .sNum 4, .sNum 5]) 5 rfl rfl (by decide)⟩

/-- C2: after every successful normalization the two designated feature
slots (13/14 in the predict.py variant, 0/1 in the predict_v2.py variant)
hold the float-coerced transaction_value and gas_price of the normalized
request, regardless of what the caller's features array held there, the
trusted fast path included. -/
theorem c2_overwrite_guarantee :
    (∀ p q : Payload, normalizeV1 p = some q →
      ∃ tv gp,
        floatCoerce (getKeyD q "transaction_value" (num 0)) = some tv ∧
        floatCoerce (getKeyD q "gas_price" (num 20)) = some gp ∧
        featureSlot q 13 = some (.sNum tv) ∧ featureSlot q 14 = some (.sNum gp)) ∧
    (∀ p q : Payload, normalizeV2 p = some q →
      ∃ tv gp,
        floatCoerce (getKeyD q "transaction_value" (num 0)) = some tv ∧
        floatCoerce (getKeyD q "gas_price" (num 20)) = some gp ∧
        featureSlot q 0 = some (.sNum tv) ∧ featureSlot q 1 = some (.sNum gp)) :=
  ⟨fun p q h => normalizeAt_overwrite (by decide) h,
   fun p q h => normalizeAt_overwrite (by decide) h⟩

/-- Fast-path payload whose 18-element features array disagrees with its
transaction_value and gas_price everywhere. -/
def c2Input : Payload :=
  [("from_address", str "0xa"), ("to_address", str "0xb"),
   ("transaction_value", num 5), ("gas_price", num 2),
   ("features", .vList (List.replicate 18 (.sNum 7)))]

/-- Witness for C2 at a concrete disagreeing fast-path payload, for both
variants. -/
theorem c2_witness :
    (∃ tv gp,
      floatCoerce (getKeyD ((normalizeV1 c2Input).getD []) "transaction_value" (num 0)) =
        some tv ∧
      floatCoerce (getKeyD ((normalizeV1 c2Input).getD []) "gas_price" (num 20)) = some gp ∧
      featureSlot ((normalizeV1 c2Input).getD []) 13 = some (.sNum tv) ∧
      featureSlot ((normalizeV1 c2Input).getD []) 14 = some (.sNum gp)) ∧
    (∃ tv gp,
      floatCoerce (getKeyD ((normalizeV2 c2Input).getD []) "transaction_value" (num 0)) =
        some tv ∧
      floatCoerce (getKeyD ((normalizeV2 c2Input).getD []) "gas_price" (num 20)) = some gp ∧
      featureSlot ((normalizeV2 c2Input).getD []) 0 = some (.sNum tv) ∧
      featureSlot ((normalizeV2 c2Input).getD []) 1 = some (.sNum gp)) :=
  ⟨c2_overwrite_guarantee.1 c2Input _ rfl, c2_overwrite_guarantee.2 c2Input _ rfl⟩

/-- Normalization of a canonical payload: the fast path passes it through,
the length fix keeps its 18-slot list, and only the slot overwrite
changes it. -/
lemma normalizeV1_canonical {p : Payload} {a g : ℚ} {l : List Scalar}
    (hfrom : hasKey p "from_address" = true) (hto : hasKey p "to_address" = true)
    (htv : lookupKey p "transaction_value" = some (num a))
    (hgp : lookupKey p "gas_price" = some (num g))
    (hfeat : lookupKey p "features" = some (.vList l))
    (hlen : l.length = 18) :
    normalizeV1 p =
      some (setKey p "features" (.vList ((l.set 13 (.sNum a)).set 14 (.sNum g)))) := by
  have hc : isCanonicalShape p = true := by
    unfold isCanonicalShape
    rw [show hasKey p "transaction_value" = true from by simp [hasKey, htv],
        show hasKey p "features" = true from by simp [hasKey, hfeat], hfrom, hto]
    rfl
  have hshape : shapeNormalize p = some p := by
    unfold shapeNormalize
    rw [if_pos hc]
  have hfix : fixFeaturesLength p = some p := by
    rw [fixFeaturesLength_spec hfeat rfl]
    simp [hlen]
  have hover : overwriteSlots 13 14 p =
      some (setKey p "features" (.vList ((l.set 13 (.sNum a)).set 14 (.sNum g)))) :=
    overwriteSlots_eq_some.2
      ⟨a, l, g, by simp [getKeyD, htv, floatCoerce, num], hfeat, by omega,
       by simp [getKeyD, hgp, floatCoerce, num], by omega, rfl⟩
  unfold normalizeV1 normalizeAt
  simp only [hshape, hfix]
  exact hover

/-- C9: normalization (fast-path check, length fix, slot overwrite) is
idempotent on canonical payloads: for a payload with all four required
keys, numeric transaction_value and gas_price and an 18-slot features list,
one application produces a result that a second application maps to
itself. -/
theorem c9_idempotent_normalization (p : Payload) (a g : ℚ) (l : List Scalar)
    (hfrom : hasKey p "from_address" = true) (hto : hasKey p "to_address" = true)
    (htv : lookupKey p "transaction_value" = some (num a))
    (hgp : lookupKey p "gas_price" = some (num g))
    (hfeat : lookupKey p "features" = some (.vList l))
    (hlen : l.length = 18) :
    ∃ q, normalizeV1 p = some q ∧ normalizeV1 q = some q := by
  refine ⟨setKey p "features" (.vList ((l.set 13 (.sNum a)).set 14 (.sNum g))),
    normalizeV1_canonical hfrom hto htv hgp hfeat hlen, ?_⟩
  have hstep := normalizeV1_canonical
    (p := setKey p "features" (.vList ((l.set 13 (.sNum a)).set 14 (.sNum g))))
    (a := a) (g := g) (l := (l.set 13 (.sNum a)).set 14 (.sNum g))
    (by unfold hasKey at hfrom ⊢; rw [lookup_setKey_ne _ _ (by decide)]; exact hfrom)
    (by unfold hasKey at hto ⊢; rw [lookup_setKey_ne _ _ (by decide)]; exact hto)
    (by rw [lookup_setKey_ne _ _ (by decide)]; exact htv)
    (by rw [lookup_setKey_ne _ _ (by decide)]; exact hgp)
    (lookup_setKey_self _ _ _)
    (by simp [hlen])
  rw [hstep]
  have hcomm : (((l.set 13 (.sNum a)).set 14 (.sNum g)).set 13 (.sNum a)) =
      ((l.set 13 (.sNum a)).set 13 (.sNum a)).set 14 (.sNum g) :=
    List.set_comm _ _ _ (by decide)
  rw [hcomm, List.set_set, List.set_set, setKey_setKey]

/-- Canonical payload with numeric transaction_value and gas_price and an
18-slot features list. -/
def c9Input : Payload :=
  [("from_address", str "0xa"), ("to_address", str "0xb"),
   ("transaction_value", num 4), ("gas_price", num 21),
   ("features", .vList defaultFeatures)]

/-- Witness for C9 at a concrete canonical payload. -/
theorem c9_witness : ∃ q, normalizeV1 c9Input = some q ∧ normalizeV1 q = some q :=
  c9_idempotent_normalization c9Input 4 21 defaultFeatures rfl rfl rfl rfl rfl rfl

/-- Fast-path payload whose trusted 18-element features list is all
strings. -/
def c1Input : Payload :=
  [("from_address", str "0xa"), ("to_address", str "0xb"),
   ("transaction_value", num 1),
   ("features", .vList (List.replicate 18 (.sStr "x")))]

/-- Counterexample to C1 as stated: on the already-canonical fast path the
caller's features list is trusted, so after a successful normalization slot
0 - inside the range 0-15 that the claim says is numeric - still holds the
string "x". -/
theorem c1_counterexample :
    featureSlot ((normalizeV1 c1Input).getD []) 0 = some (.sStr "x") ∧
    (normalizeV1 c1Input).isSome = true := by
  constructor <;> rfl

/-- C1 (amended): the typed-slot guarantee holds exactly when the canonical
default vector is installed - that is, when the caller's features field is
absent or is a list of the wrong length.  Then the normalized vector has
numeric values in slots 0-15 and strings in slots 16-17.  (On the fast path
with a caller-supplied length-18 list, only the two overwritten slots are
guaranteed numeric, as the counterexample shows.) -/
theorem c1_slot_typing_on_default (p q : Payload)
    (hf : lookupKey p "features" = none ∨
          ∃ l0, lookupKey p "features" = some (.vList l0) ∧ l0.length ≠ 18)
    (h : normalizeV1 p = some q) :
    ∃ l, lookupKey q "features" = some (.vList l) ∧ l.length = 18 ∧
      (∀ k, k < 16 → ∃ x, l.get? k = some (.sNum x)) ∧
      (∃ s16 s17, l.get? 16 = some (.sStr s16) ∧ l.get? 17 = some (.sStr s17)) := by
  obtain ⟨tv, gp, hq⟩ := normalizeAt_default h hf
  refine ⟨(defaultFeatures.set 13 (.sNum tv)).set 14 (.sNum gp), hq, rfl, ?_, "", "", rfl, rfl⟩
  intro k hk
  interval_cases k <;> exact ⟨_, rfl⟩

/-- Old-format payload with no features field at all. -/
def c1WitnessInput : Payload := [("transaction_value", num 2)]

/-- Witness for the amended C1 at a concrete payload without features. -/
theorem c1_witness :
    ∃ l, lookupKey ((normalizeV1 c1WitnessInput).getD []) "features" = some (.vList l) ∧
      l.length = 18 ∧
      (∀ k, k < 16 → ∃ x, l.get? k = some (.sNum x)) ∧
      (∃ s16 s17, l.get? 16 = some (.sStr s16) ∧ l.get? 17 = some (.sStr s17)) :=
  c1_slot_typing_on_default c1WitnessInput _ (Or.inl rfl) rfl

/-- Characterization of a successful v2 timeout fallback. -/
lemma v2FallbackAssessment_eq_some {q pa : Payload}
    (h : v2FallbackAssessment q = some pa) :
    ∃ big, valGtNum (getKeyD q "transaction_value" (num 0)) 10 = some big ∧
      pa = [("prediction", str "Unknown"),
            ("risk_score", num (if big
              then pymin 0.6 ((if truthy (getKeyD q "is_contract_interaction" (bool false))
                then 0.45 else 0.3) + 0.15)
              else if truthy (getKeyD q "is_contract_interaction" (bool false))
                then 0.45 else 0.3)),
            ("risk_level", str (if big then "MEDIUM-HIGH"
              else if truthy (getKeyD q "is_contract_interaction" (bool false))
                then "MEDIUM" else "MEDIUM-LOW")),
            ("explanation", str (("ML API timed out. Using fallback risk assessment."
              ++ (if truthy (getKeyD q "is_contract_interaction" (bool false))
                  then " Contract interaction detected." else ""))
              ++ (if big then " Large transaction value." else ""))),
            ("timeout", bool true),
            ("fallback_assessment", bool true)] := by
  unfold v2FallbackAssessment at h
  cases hb : valGtNum (getKeyD q "transaction_value" (num 0)) 10 with
  | none => rw [hb] at h; cases h
  | some big =>
    rw [hb] at h
    exact ⟨big, rfl, (Option.some_inj.mp h).symm⟩

/-- Characterization of a successful v2 success assessment. -/
lemma v2SuccessAssessment_eq_some {body : Obj} {a : Payload}
    (h : v2SuccessAssessment body = some a) :
    ∃ hi med,
      valGtNum ((getKeyD body "risk_score" (.fScalar (.sNum 0.1))).toVal) 0.7 = some hi ∧
      valGtNum ((getKeyD body "risk_score" (.fScalar (.sNum 0.1))).toVal) 0.4 = some med ∧
      a = [("prediction", (getKeyD body "prediction" (.fScalar (.sNum 0))).toVal),
           ("risk_score", (getKeyD body "risk_score" (.fScalar (.sNum 0.1))).toVal),
           ("risk_level", str (if hi then "HIGH" else if med then "MEDIUM" else "LOW")),
           ("features", (getKeyD body "features" (.fList [])).toVal),
           ("explanation", str ("Transaction risk score: "
             ++ pyStr ((getKeyD body "risk_score" (.fScalar (.sNum 0.1))).toVal))),
           ("success", bool true)] := by
  unfold v2SuccessAssessment at h
  cases hhi : valGtNum ((getKeyD body "risk_score" (.fScalar (.sNum 0.1))).toVal) 0.7 with
  | none => rw [hhi] at h; cases h
  | some hi =>
    rw [hhi] at h
    have h' : (match valGtNum ((getKeyD body "risk_score" (.fScalar (.sNum 0.1))).toVal) 0.4 with
        | none => none
        | some med =>
          some [("prediction", (getKeyD body "prediction" (.fScalar (.sNum 0))).toVal),
                ("risk_score", (getKeyD body "risk_score" (.fScalar (.sNum 0.1))).toVal),
                ("risk_level", str (if hi then "HIGH" else if med then "MEDIUM" else "LOW")),
                ("features", (getKeyD body "features" (.fList [])).toVal),
                ("explanation", str ("Transaction risk score: "
                  ++ pyStr ((getKeyD body "risk_score" (.fScalar (.sNum 0.1))).toVal))),
                ("success", bool true)]) = some a := h
    clear h
    cases hmed : valGtNum ((getKeyD body "risk_score" (.fScalar (.sNum 0.1))).toVal) 0.4 with
    | none => rw [hmed] at h'; cases h'
    | some med =>
      rw [hmed] at h'
      exact ⟨hi, med, rfl, rfl, (Option.some_inj.mp h').symm⟩

/-- Canonical payload marking a large contract interaction: truthy
is_contract_interaction and transaction_value 15. -/
def c3InputBig : Payload :=
  [("from_address", str "0xa"), ("to_address", str "0xb"),
   ("transaction_value", num 15), ("gas_price", num 20),
   ("is_contract_interaction", bool true),
   ("features", .vList defaultFeatures)]

/-- Canonical payload for a small plain transfer: is_contract_interaction
false and transaction_value 1. -/
def c3InputSmall : Payload :=
  [("from_address", str "0xa"), ("to_address", str "0xb"),
   ("transaction_value", num 1), ("gas_price", num 20),
   ("is_contract_interaction", bool false),
   ("features", .vList defaultFeatures)]

/-- C3: when both delivery attempts time out, the v2 fallback synthesizer
yields risk_score min(0.6, 0.45+0.15) = 0.6 with level MEDIUM-HIGH for a
contract interaction of value 15, and 0.3 with MEDIUM-LOW for a
non-contract transfer of value 1; in general the base is 0.3/MEDIUM-LOW, a
truthy contract flag raises it to 0.45/MEDIUM, and transaction_value > 10
adds 0.15 capped by min at 0.6 with level MEDIUM-HIGH. -/
theorem c3_fallback_assessment :
    (lookupKey (v2Predict c3InputBig .timeout .timeout) "risk_score" = some (num 0.6) ∧
     lookupKey (v2Predict c3InputBig .timeout .timeout) "risk_level" =
       some (str "MEDIUM-HIGH")) ∧
    (lookupKey (v2Predict c3InputSmall .timeout .timeout) "risk_score" = some (num 0.3) ∧
     lookupKey (v2Predict c3InputSmall .timeout .timeout) "risk_level" =
       some (str "MEDIUM-LOW")) ∧
    (∀ (q pa : Payload) (big : Bool),
      valGtNum (getKeyD q "transaction_value" (num 0)) 10 = some big →
      v2FallbackAssessment q = some pa →
      lookupKey pa "risk_score" = some (num (if big
          then pymin 0.6 ((if truthy (getKeyD q "is_contract_interaction" (bool false))
            then 0.45 else 0.3) + 0.15)
          else if truthy (getKeyD q "is_contract_interaction" (bool false))
            then 0.45 else 0.3)) ∧
      lookupKey pa "risk_level" = some (str (if big then "MEDIUM-HIGH"
          else if truthy (getKeyD q "is_contract_interaction" (bool false))
            then "MEDIUM" else "MEDIUM-LOW"))) := by
  refine ⟨⟨?_, ?_⟩, ⟨?_, ?_⟩, ?_⟩
  · simp +decide only [v2Predict, v2Round1, v2Round2, v2TimeoutFallback, v2Handle200, v2HandleBody, normalizeV2, normalizeAt, shapeNormalize, isCanonicalShape,
      hasKey, lookupKey, getKeyD, fixFeaturesLength, pyLen, overwriteSlots, floatCoerce,
      setItem, setKey, num, str, bool, c3InputBig, defaultFeatures, v2FallbackAssessment,
      truthy, valGtNum, pymin]
    try norm_num
  · simp +decide only [v2Predict, v2Round1, v2Round2, v2TimeoutFallback, v2Handle200, v2HandleBody, normalizeV2, normalizeAt, shapeNormalize, isCanonicalShape,
      hasKey, lookupKey, getKeyD, fixFeaturesLength, pyLen, overwriteSlots, floatCoerce,
      setItem, setKey, num, str, bool, c3InputBig, defaultFeatures, v2FallbackAssessment,
      truthy, valGtNum, pymin]
    try norm_num
  · simp +decide only [v2Predict, v2Round1, v2Round2, v2TimeoutFallback, v2Handle200, v2HandleBody, normalizeV2, normalizeAt, shapeNormalize, isCanonicalShape,
      hasKey, lookupKey, getKeyD, fixFeaturesLength, pyLen, overwriteSlots, floatCoerce,
      setItem, setKey, num, str, bool, c3InputSmall, defaultFeatures, v2FallbackAssessment,
      truthy, valGtNum, pymin]
    try norm_num
  · simp +decide only [v2Predict, v2Round1, v2Round2, v2TimeoutFallback, v2Handle200, v2HandleBody, normalizeV2, normalizeAt, shapeNormalize, isCanonicalShape,
      hasKey, lookupKey, getKeyD, fixFeaturesLength, pyLen, overwriteSlots, floatCoerce,
      setItem, setKey, num, str, bool, c3InputSmall, defaultFeatures, v2FallbackAssessment,
      truthy, valGtNum, pymin]
    try norm_num
  · intro q pa big hb hpa
    obtain ⟨big', hb', hpa'⟩ := v2FallbackAssessment_eq_some hpa
    rw [hb] at hb'
    obtain rfl := Option.some_inj.mp hb'
    subst hpa'
    exact ⟨rfl, rfl⟩

/-- Canonical payload with a truthy contract flag and a transaction value
not above 10. -/
def c10InputContract : Payload :=
  [("from_address", str "0xa"), ("to_address", str "0xb"),
   ("transaction_value", num 5), ("gas_price", num 20),
   ("is_contract_interaction", bool true),
   ("features", .vList defaultFeatures)]

/-- Canonical payload with no contract flag and a transaction value above
10. -/
def c10InputLarge : Payload :=
  [("from_address", str "0xa"), ("to_address", str "0xb"),
   ("transaction_value", num 15), ("gas_price", num 20),
   ("is_contract_interaction", bool false),
   ("features", .vList defaultFeatures)]

/-- C10: in the v2 timeout fallback, risk_level is not a function of
risk_score: a contract interaction of value 5 and a non-contract transfer
of value 15 both score 0.45 (0.45 vs min(0.6, 0.3+0.15)), yet the former is
labeled MEDIUM and the latter MEDIUM-HIGH. -/
theorem c10_level_not_score_function :
    lookupKey (v2Predict c10InputContract .timeout .timeout) "risk_score" =
      some (num 0.45) ∧
    lookupKey (v2Predict c10InputLarge .timeout .timeout) "risk_score" =
      some (num 0.45) ∧
    lookupKey (v2Predict c10InputContract .timeout .timeout) "risk_level" =
      some (str "MEDIUM") ∧
    lookupKey (v2Predict c10InputLarge .timeout .timeout) "risk_level" =
      some (str "MEDIUM-HIGH") := by
  refine ⟨?_, ?_, ?_, ?_⟩ <;>
    · simp +decide only [v2Predict, v2Round1, v2Round2, v2TimeoutFallback, v2Handle200, v2HandleBody, normalizeV2, normalizeAt, shapeNormalize,
        isCanonicalShape, hasKey, lookupKey, getKeyD, fixFeaturesLength, pyLen,
        overwriteSlots, floatCoerce, setItem, setKey, num, str, bool, c10InputContract,
        c10InputLarge, defaultFeatures, v2FallbackAssessment, truthy, valGtNum, pymin]
      try norm_num

/-- Canonical payload used to exercise the v2 delivery state machine. -/
def c6Input : Payload :=
  [("from_address", str "0xa"), ("to_address", str "0xb"),
   ("transaction_value", num 2), ("gas_price", num 20),
   ("is_contract_interaction", bool false),
   ("features", .vList defaultFeatures)]

/-- Counterexample to C6 as stated: when the first attempt times out and
the second attempt returns HTTP 200 with a body that fails JSON parsing,
the final result is the dedicated invalid-response error assessment - an
error assessment, not the success-path assessment. -/
theorem c6_counterexample :
    lookupKey (v2Predict c6Input .timeout (.response 200 none)) "error" =
      some (str "Invalid response from ML API (JSON parsing error)") ∧
    lookupKey (v2Predict c6Input .timeout (.response 200 none)) "success" = none := by
  constructor <;> rfl

/-- C6 (amended): under the two-tier timeout policy, if normalization
succeeded, the first attempt times out, and the second attempt returns
HTTP 200 with a body on which the success assessment computes, the final
result is exactly that success-path assessment, carrying neither an error
field nor a timeout flag; a 200 body that fails JSON parsing instead
yields the invalid-response error assessment. -/
theorem c6_timeout_tiering (p q : Payload) (body : Obj) (a : Payload)
    (hn : normalizeV2 p = some q) (hs : v2SuccessAssessment body = some a) :
    v2Predict p .timeout (.response 200 (some body)) = a ∧
    lookupKey a "error" = none ∧ lookupKey a "timeout" = none ∧
    lookupKey a "success" = some (bool true) := by
  obtain ⟨hi, med, hhi, hmed, rfl⟩ := v2SuccessAssessment_eq_some hs
  refine ⟨?_, rfl, rfl, rfl⟩
  have h1 : v2Predict p .timeout (.response 200 (some body)) =
      v2HandleResponse 200 (some body) := by
    unfold v2Predict
    rw [hn]
    rfl
  rw [h1]
  unfold v2HandleResponse v2Handle200 v2HandleBody
  simp +decide only [hs, ite_true]

/-- Upstream body with a small numeric risk score. -/
def c6Body : Obj := [("risk_score", .fScalar (.sNum 0.2))]

/-- Success assessment the v2 predictor builds from c6Body. -/
def c6Result : Payload :=
  [("prediction", num 0), ("risk_score", num 0.2), ("risk_level", str "LOW"),
   ("features", .vList []),
   ("explanation", str ("Transaction risk score: " ++ pyStr (num 0.2))),
   ("success", bool true)]

/-- Witness for the amended C6 at a concrete payload and body. -/
theorem c6_witness :
    v2Predict c6Input .timeout (.response 200 (some c6Body)) = c6Result ∧
    lookupKey c6Result "error" = none ∧ lookupKey c6Result "timeout" = none ∧
    lookupKey c6Result "success" = some (bool true) :=
  c6_timeout_tiering c6Input _ c6Body c6Result rfl (by
    simp +decide only [v2SuccessAssessment, c6Body, c6Result, getKeyD, lookupKey,
      FieldVal.toVal, valGtNum, num, str, bool]
    norm_num)

/-- Assumption that a 200-status outcome carries either no risk_score or a
numeric risk_score already inside [0, 1] (what a well-behaved upstream
scorer returns). -/
def outcomeScoreOK : UpOutcome → Prop
  | .response s b => s = 200 → ∀ body : Obj, b = some body →
      (lookupKey body "risk_score" = none ∨
       ∃ x : ℚ, lookupKey body "risk_score" = some (.fScalar (.sNum x)) ∧ 0 ≤ x ∧ x ≤ 1)
  | _ => True

/-- Score bound for a computed fallback assessment. -/
lemma v2Fallback_score_bounds {q pa : Payload} (h : v2FallbackAssessment q = some pa) :
    ∃ x : ℚ, lookupKey pa "risk_score" = some (num x) ∧ 0 ≤ x ∧ x ≤ 1 := by
  obtain ⟨big, hb, rfl⟩ := v2FallbackAssessment_eq_some h
  refine ⟨_, rfl, ?_⟩
  cases big <;> cases truthy (getKeyD q "is_contract_interaction" (bool false)) <;>
    norm_num [pymin]

/-- Score bound for a computed success assessment, given a well-behaved
body. -/
lemma v2Success_score_bounds {body : Obj} {a : Payload}
    (hok : lookupKey body "risk_score" = none ∨
           ∃ x : ℚ, lookupKey body "risk_score" = some (.fScalar (.sNum x)) ∧ 0 ≤ x ∧ x ≤ 1)
    (h : v2SuccessAssessment body = some a) :
    ∃ x : ℚ, lookupKey a "risk_score" = some (num x) ∧ 0 ≤ x ∧ x ≤ 1 := by
  obtain ⟨hi, med, _, _, rfl⟩ := v2SuccessAssessment_eq_some h
  rcases hok with habs | ⟨x, hx, h0, h1⟩
  · refine ⟨0.1, ?_, by norm_num⟩
    show some ((getKeyD body "risk_score" (.fScalar (.sNum 0.1))).toVal) = some (num 0.1)
    simp [getKeyD, habs, FieldVal.toVal, num]
  · refine ⟨x, ?_, h0, h1⟩
    show some ((getKeyD body "risk_score" (.fScalar (.sNum 0.1))).toVal) = some (num x)
    simp [getKeyD, hx, FieldVal.toVal, num]

/-- Score bound for the shared response handler, given a well-behaved
200 body. -/
lemma v2HandleResponse_score_bounds (s : ℕ) (b : Option Obj)
    (hok : s = 200 → ∀ body : Obj, b = some body →
      (lookupKey body "risk_score" = none ∨
       ∃ x : ℚ, lookupKey body "risk_score" = some (.fScalar (.sNum x)) ∧ 0 ≤ x ∧ x ≤ 1)) :
    ∃ x : ℚ, lookupKey (v2HandleResponse s b) "risk_score" = some (num x) ∧
      0 ≤ x ∧ x ≤ 1 := by
  unfold v2HandleResponse
  by_cases hs : s = 200
  · rw [if_pos hs]
    cases b with
    | none => exact ⟨0.5, rfl, by norm_num⟩
    | some body =>
      have hb : v2Handle200 (some body) = v2HandleBody body := rfl
      rw [hb]
      unfold v2HandleBody
      cases ha : v2SuccessAssessment body with
      | none => exact ⟨0.5, rfl, by norm_num⟩
      | some a => exact v2Success_score_bounds (hok hs body rfl) ha
  · rw [if_neg hs]
    exact ⟨0.5, rfl, by norm_num⟩

/-- C7 (amended): for every payload and every upstream outcome, the
returned risk_score is a number in [0, 1] provided a 200 response body
carries either no risk_score or a numeric risk_score already in [0, 1];
every locally synthesized score (timeout fallback, API error, transport
error, invalid body, catch-all) lies in [0, 1] unconditionally, but on the
success path the upstream score is forwarded without clamping, so the
proviso is necessary (see the counterexample). -/
theorem c7_risk_score_bounds (p : Payload) (o1 o2 : UpOutcome)
    (h1 : outcomeScoreOK o1) (h2 : outcomeScoreOK o2) :
    ∃ x : ℚ, lookupKey (v2Predict p o1 o2) "risk_score" = some (num x) ∧
      0 ≤ x ∧ x ≤ 1 := by
  unfold v2Predict
  cases hn : normalizeV2 p with
  | none => exact ⟨0.5, rfl, by norm_num⟩
  | some q =>
    show ∃ x : ℚ, lookupKey (v2Round1 q o1 o2) "risk_score" = some (num x) ∧ 0 ≤ x ∧ x ≤ 1
    cases o1 with
    | response s b => exact v2HandleResponse_score_bounds s b h1
    | transportErr en em => exact ⟨0.5, rfl, by norm_num⟩
    | timeout =>
      cases o2 with
      | response s b => exact v2HandleResponse_score_bounds s b h2
      | transportErr en em => exact ⟨0.5, rfl, by norm_num⟩
      | timeout =>
        show ∃ x : ℚ, lookupKey (v2TimeoutFallback q) "risk_score" = some (num x) ∧
          0 ≤ x ∧ x ≤ 1
        unfold v2TimeoutFallback
        cases hf : v2FallbackAssessment q with
        | none => exact ⟨0.5, rfl, by norm_num⟩
        | some pa => exact v2Fallback_score_bounds hf

/-- Canonical payload used for the C7 outcomes. -/
def c7Input : Payload :=
  [("from_address", str "0xa"), ("to_address", str "0xb"),
   ("transaction_value", num 2), ("gas_price", num 20),
   ("is_contract_interaction", bool false),
   ("features", .vList defaultFeatures)]

/-- Upstream 200 body claiming a risk score of 5. -/
def c7Body : Obj := [("risk_score", .fScalar (.sNum 5))]

/-- Counterexample to C7 as stated: a 200 response whose body carries
risk_score 5 is forwarded verbatim, so the returned risk_score is 5,
outside the closed interval [0, 1]. -/
theorem c7_counterexample :
    lookupKey (v2Predict c7Input (.response 200 (some c7Body)) .timeout) "risk_score" =
      some (num 5) ∧ ¬ ((5 : ℚ) ≤ 1) := by
  constructor
  · simp +decide only [v2Predict, v2Round1, v2Round2, v2TimeoutFallback, v2Handle200, v2HandleBody, normalizeV2, normalizeAt, shapeNormalize, isCanonicalShape,
      hasKey, lookupKey, getKeyD, fixFeaturesLength, pyLen, overwriteSlots, floatCoerce,
      setItem, setKey, num, str, bool, c7Input, c7Body, defaultFeatures, v2HandleResponse,
      v2SuccessAssessment, FieldVal.toVal, valGtNum, pyStr, ite_true]
    try norm_num
  · norm_num

/-- Witness for the amended C7 at concrete all-timeout outcomes. -/
theorem c7_witness :
    ∃ x : ℚ, lookupKey (v2Predict c7Input .timeout .timeout) "risk_score" = some (num x) ∧
      0 ≤ x ∧ x ≤ 1 :=
  c7_risk_score_bounds c7Input .timeout .timeout trivial trivial

/-- Canonical payload used for the C8 outcomes. -/
def c8Input : Payload :=
  [("from_address", str "0xa"), ("to_address", str "0xb"),
   ("transaction_value", num 1), ("gas_price", num 20),
   ("is_contract_interaction", bool false),
   ("features", .vList defaultFeatures)]

/-- Counterexample to C8 as stated: the v1 predictor's non-200 result (and
predict_new's) carries an error string and a factors list but no
explanation field at all. -/
theorem c8_counterexample :
    lookupKey (v1Predict c8Input (.response 500 (some []))) "explanation" = none ∧
    lookupKey (v1Predict c8Input (.response 500 (some []))) "error" =
      some (str ("API Error: " ++ toString 500)) ∧
    lookupKey (newPredict (.response 500 (some []))) "explanation" = none :=
  ⟨rfl, rfl, rfl⟩

/-- C8 (amended): every result of the v2 predictor - success, non-200,
invalid body, transport error, timeout fallback and catch-all alike -
contains an explanation field holding a string; of the v1 predictor's
results only the timeout fallback and the 200-success assessment carry one
(its non-200 and catch-all results carry factors instead, as the
counterexample shows). -/
theorem c8_explanation_presence :
    (∀ (p : Payload) (o1 o2 : UpOutcome),
      ∃ s, lookupKey (v2Predict p o1 o2) "explanation" = some (str s)) ∧
    (∃ s, lookupKey v1TimeoutAssessment "explanation" = some (str s)) ∧
    (∀ body : Obj, ∃ s, lookupKey (v1SuccessAssessment body) "explanation" = some (str s)) := by
  refine ⟨fun p o1 o2 => ?_, ⟨_, rfl⟩, fun body => ⟨_, rfl⟩⟩
  have hhr : ∀ (s : ℕ) (b : Option Obj),
      ∃ s', lookupKey (v2HandleResponse s b) "explanation" = some (str s') := by
    intro s b
    unfold v2HandleResponse
    by_cases hs : s = 200
    · rw [if_pos hs]
      cases b with
      | none => exact ⟨_, rfl⟩
      | some body =>
        have hb : v2Handle200 (some body) = v2HandleBody body := rfl
        rw [hb]
        unfold v2HandleBody
        cases ha : v2SuccessAssessment body with
        | none => exact ⟨_, rfl⟩
        | some a =>
          obtain ⟨hi, med, _, _, rfl⟩ := v2SuccessAssessment_eq_some ha
          exact ⟨_, rfl⟩
    · rw [if_neg hs]
      exact ⟨_, rfl⟩
  unfold v2Predict
  cases hn : normalizeV2 p with
  | none => exact ⟨_, rfl⟩
  | some q =>
    show ∃ s, lookupKey (v2Round1 q o1 o2) "explanation" = some (str s)
    cases o1 with
    | response s b => exact hhr s b
    | transportErr en em => exact ⟨_, rfl⟩
    | timeout =>
      cases o2 with
      | response s b => exact hhr s b
      | transportErr en em => exact ⟨_, rfl⟩
      | timeout =>
        show ∃ s, lookupKey (v2TimeoutFallback q) "explanation" = some (str s)
        unfold v2TimeoutFallback
        cases hf : v2FallbackAssessment q with
        | none => exact ⟨_, rfl⟩
        | some pa =>
          obtain ⟨big, hb, rfl⟩ := v2FallbackAssessment_eq_some hf
          exact ⟨_, rfl⟩

/-- Canonical payload used for the C4 responses. -/
def c4Input : Payload :=
  [("from_address", str "0xa"), ("to_address", str "0xb"),
   ("transaction_value", num 1), ("gas_price", num 20),
   ("is_contract_interaction", bool false),
   ("features", .vList defaultFeatures)]

/-- Upstream body in the prediction-string shape. -/
def c4FraudBody : Obj := [("prediction", .fScalar (.sStr "Fraud"))]

/-- Upstream body in the numeric risk_score shape. -/
def c4ScoreBody : Obj :=
  [("prediction", .fScalar (.sNum 1)), ("risk_score", .fScalar (.sNum 0.55))]

/-- Counterexample to C4 as stated: no predictor dispatches on which fields
are present.  The v2 predictor given the prediction-string body
produces 0.1/LOW (the claim says 0.9/HIGH), because it only reads
risk_score; the v1 predictor given the numeric body produces 0.1/LOW (the
claim says MEDIUM), because it only compares the prediction string. -/
theorem c4_counterexample :
    lookupKey (v2Predict c4Input (.response 200 (some c4FraudBody)) .timeout) "risk_level" =
      some (str "LOW") ∧
    lookupKey (v2Predict c4Input (.response 200 (some c4FraudBody)) .timeout) "risk_score" =
      some (num 0.1) ∧
    lookupKey (v1Predict c4Input (.response 200 (some c4ScoreBody))) "risk_level" =
      some (str "LOW") ∧
    lookupKey (v1Predict c4Input (.response 200 (some c4ScoreBody))) "risk_score" =
      some (num 0.1) := by
  refine ⟨?_, ?_, rfl, rfl⟩ <;>
  · simp +decide only [v2Predict, v2Round1, v2Round2, v2TimeoutFallback, v2Handle200,
      v2HandleBody, normalizeV2, normalizeAt, shapeNormalize, isCanonicalShape,
      hasKey, lookupKey, getKeyD, fixFeaturesLength, pyLen, overwriteSlots, floatCoerce,
      setItem, setKey, num, str, bool, c4Input, c4FraudBody, defaultFeatures,
      v2HandleResponse, v2SuccessAssessment, FieldVal.toVal, valGtNum, pyStr, ite_true]
    try norm_num

/-- C4 (amended): each predictor variant supports exactly one upstream
response shape.  The v1 predictor maps a body whose prediction string is
"Fraud" to 0.9/HIGH and every other body to 0.1/LOW, ignoring any
risk_score field; the v2 predictor forwards a numeric risk_score verbatim
and re-buckets it as HIGH above 0.7, MEDIUM above 0.4 and LOW otherwise,
ignoring the prediction field - so the body with prediction 1 and
risk_score 0.55 yields MEDIUM under v2 (witness) and LOW under v1
(counterexample).  Neither variant dispatches on which fields are
present. -/
theorem c4_shape_dispatch :
    (∀ (p r : Payload) (body : Obj), normalizeV1 p = some r →
      lookupKey (v1Predict p (.response 200 (some body))) "risk_score" =
        some (num (if isFraudPrediction body then 0.9 else 0.1)) ∧
      lookupKey (v1Predict p (.response 200 (some body))) "risk_level" =
        some (str (if isFraudPrediction body then "HIGH" else "LOW"))) ∧
    (∀ (p r : Payload) (body : Obj) (x : ℚ) (o2 : UpOutcome), normalizeV2 p = some r →
      lookupKey body "risk_score" = some (.fScalar (.sNum x)) →
      lookupKey (v2Predict p (.response 200 (some body)) o2) "risk_score" = some (num x) ∧
      (0.7 < x →
        lookupKey (v2Predict p (.response 200 (some body)) o2) "risk_level" =
          some (str "HIGH")) ∧
      (¬ 0.7 < x → 0.4 < x →
        lookupKey (v2Predict p (.response 200 (some body)) o2) "risk_level" =
          some (str "MEDIUM")) ∧
      (¬ 0.7 < x → ¬ 0.4 < x →
        lookupKey (v2Predict p (.response 200 (some body)) o2) "risk_level" =
          some (str "LOW"))) := by
  constructor
  · intro p r body hn
    have h1 : v1Predict p (.response 200 (some body)) = v1SuccessAssessment body := by
      unfold v1Predict
      rw [hn]
      rfl
    rw [h1]
    exact ⟨rfl, rfl⟩
  · intro p r body x o2 hn hx
    have hrs : (getKeyD body "risk_score" (.fScalar (.sNum 0.1))).toVal = num x := by
      simp [getKeyD, hx, FieldVal.toVal, num]
    have hgt : ∀ t : ℚ,
        valGtNum ((getKeyD body "risk_score" (.fScalar (.sNum 0.1))).toVal) t =
          some (if t < x then true else false) := by
      intro t
      rw [hrs]
      rfl
    have hsa : v2SuccessAssessment body =
        some [("prediction", (getKeyD body "prediction" (.fScalar (.sNum 0))).toVal),
              ("risk_score", (getKeyD body "risk_score" (.fScalar (.sNum 0.1))).toVal),
              ("risk_level", str (if (if (0.7 : ℚ) < x then true else false) then "HIGH"
                else if (if (0.4 : ℚ) < x then true else false) then "MEDIUM" else "LOW")),
              ("features", (getKeyD body "features" (.fList [])).toVal),
              ("explanation", str ("Transaction risk score: "
                ++ pyStr ((getKeyD body "risk_score" (.fScalar (.sNum 0.1))).toVal))),
              ("success", bool true)] := by
      unfold v2SuccessAssessment
      rw [hgt 0.7, hgt 0.4]
    have h1 : v2Predict p (.response 200 (some body)) o2 = v2HandleBody body := by
      unfold v2Predict
      rw [hn]
      rfl
    have h2 : v2HandleBody body =
        [("prediction", (getKeyD body "prediction" (.fScalar (.sNum 0))).toVal),
         ("risk_score", (getKeyD body "risk_score" (.fScalar (.sNum 0.1))).toVal),
         ("risk_level", str (if (if (0.7 : ℚ) < x then true else false) then "HIGH"
           else if (if (0.4 : ℚ) < x then true else false) then "MEDIUM" else "LOW")),
         ("features", (getKeyD body "features" (.fList [])).toVal),
         ("explanation", str ("Transaction risk score: "
           ++ pyStr ((getKeyD body "risk_score" (.fScalar (.sNum 0.1))).toVal))),
         ("success", bool true)] := by
      unfold v2HandleBody
      rw [hsa]
    rw [h1, h2]
    refine ⟨?_, ?_, ?_, ?_⟩
    · show some ((getKeyD body "risk_score" (.fScalar (.sNum 0.1))).toVal) = some (num x)
      rw [hrs]
    · intro h07
      show some (str (if (if (0.7 : ℚ) < x then true else false) then "HIGH"
        else if (if (0.4 : ℚ) < x then true else false) then "MEDIUM" else "LOW")) =
        some (str "HIGH")
      rw [if_pos h07]
      rfl
    · intro h07 h04
      show some (str (if (if (0.7 : ℚ) < x then true else false) then "HIGH"
        else if (if (0.4 : ℚ) < x then true else false) then "MEDIUM" else "LOW")) =
        some (str "MEDIUM")
      rw [if_neg h07, if_pos h04]
      rfl
    · intro h07 h04
      show some (str (if (if (0.7 : ℚ) < x then true else false) then "HIGH"
        else if (if (0.4 : ℚ) < x then true else false) then "MEDIUM" else "LOW")) =
        some (str "LOW")
      rw [if_neg h07, if_neg h04]
      rfl

/-- Witness for the amended C4: the numeric-shape body with risk_score 0.55
yields 0.1 under v1 (prediction 1 is not the string "Fraud") and
0.55/MEDIUM under v2. -/
theorem c4_witness :
    lookupKey (v1Predict c4Input (.response 200 (some c4ScoreBody))) "risk_score" =
      some (num (if isFraudPrediction c4ScoreBody then 0.9 else 0.1)) ∧
    lookupKey (v2Predict c4Input (.response 200 (some c4ScoreBody)) .timeout) "risk_score" =
      some (num 0.55) ∧
    lookupKey (v2Predict c4Input (.response 200 (some c4ScoreBody)) .timeout) "risk_level" =
      some (str "MEDIUM") := by
  refine ⟨(c4_shape_dispatch.1 c4Input _ c4ScoreBody rfl).1, ?_, ?_⟩
  · exact (c4_shape_dispatch.2 c4Input _ c4ScoreBody 0.55 .timeout rfl rfl).1
  · exact (c4_shape_dispatch.2 c4Input _ c4ScoreBody 0.55 .timeout rfl rfl).2.2.1
      (by norm_num) (by norm_num)

/-- Fallback assessment the v2 predictor synthesizes from c3InputBig. -/
def c3WitnessResult : Payload :=
  [("prediction", str "Unknown"),
   ("risk_score", num 0.6),
   ("risk_level", str "MEDIUM-HIGH"),
   ("explanation", str ("ML API timed out. Using fallback risk assessment."
     ++ " Contract interaction detected." ++ " Large transaction value.")),
   ("timeout", bool true),
   ("fallback_assessment", bool true)]

/-- Witness for C3's general clause at the concrete large contract
payload. -/
theorem c3_witness :
    lookupKey c3WitnessResult "risk_score" = some (num (if (true : Bool)
      then pymin 0.6 ((if truthy (getKeyD c3InputBig "is_contract_interaction" (bool false))
        then 0.45 else 0.3) + 0.15)
      else if truthy (getKeyD c3InputBig "is_contract_interaction" (bool false))
        then 0.45 else 0.3)) ∧
    lookupKey c3WitnessResult "risk_level" = some (str (if (true : Bool) then "MEDIUM-HIGH"
      else if truthy (getKeyD c3InputBig "is_contract_interaction" (bool false))
        then "MEDIUM" else "MEDIUM-LOW")) :=
  c3_fallback_assessment.2.2 c3InputBig c3WitnessResult true
    (by
      simp +decide only [getKeyD, lookupKey, c3InputBig, num, valGtNum, str, bool]
      try norm_num)
    (by
      simp +decide only [v2FallbackAssessment, getKeyD, lookupKey, c3InputBig, num, str,
        bool, truthy, valGtNum, c3WitnessResult]
      try norm_num [pymin])

end CuraBlock
